import Mathlib

/-!
Shallow embedding of the winston-loggly-syslog transport (src/index.js).

JavaScript values that can flow through `log`/`logFormat` are modelled by
`JsVal`; JS truthiness and the `x || default` idiom are made explicit
(`jsTruthy`, `jsOrNat`, `jsOrStr`, `jsOrBool`).  The mutable `self` object of
the transport is the structure `Self`; the stream's writability
(`this.stream && this.stream.writable`) is the abstraction field
`streamWritable`, driven by the environment (TLS handshake / socket death),
never by the transport's own handlers.  Timestamps (`new Date().toISOString()`)
and `util.inspect` are environment inputs and are passed in as parameters.
-/

/-- A JavaScript value as it can appear as a `log` message or metadata:
a string, a number, or an object (ordered key/value fields). -/
inductive JsVal where
  | vstr : String → JsVal
  | vnum : Int → JsVal
  | vobj : List (String × JsVal) → JsVal

/-- JS truthiness for the values of `JsVal`: empty string and zero are falsy,
objects are always truthy. -/
def jsTruthy : JsVal → Bool
  | .vstr s => s ≠ ""
  | .vnum n => n ≠ 0
  | .vobj _ => true

/-- The JS idiom `options.x || d` for a numeric option: absent or `0` (falsy)
falls back to the default. -/
def jsOrNat (v : Option Nat) (d : Nat) : Nat :=
  match v with
  | none => d
  | some n => if n = 0 then d else n

/-- The JS idiom `options.x || d` for a string option: absent or `""` (falsy)
falls back to the default. -/
def jsOrStr (v : Option String) (d : String) : String :=
  match v with
  | none => d
  | some s => if s = "" then d else s

/-- The JS idiom `options.x || d` for a boolean option: absent or `false`
falls back to the default. -/
def jsOrBool (v : Option Bool) (d : Bool) : Bool :=
  match v with
  | none => d
  | some b => if b = false then d else b

/-- JS property assignment `o[k] = v` on an object literal: an existing key is
updated in place, a new key is appended. -/
def objSet (o : List (String × JsVal)) (k : String) (v : JsVal) : List (String × JsVal) :=
  if o.any (fun p => p.1 = k) then
    o.map (fun p => if p.1 = k then (k, v) else p)
  else
    o ++ [(k, v)]

/-- JSON string quoting as performed by `JSON.stringify` on the characters the
transport actually emits: backslash and double quote are escaped. -/
def jsonQuote (s : String) : String :=
  "\"" ++ String.join (s.data.map (fun c =>
    if c = '\\' then "\\\\"
    else if c = '"' then "\\\""
    else String.singleton c)) ++ "\""

mutual

/-- `JSON.stringify` on a `JsVal` (the code path taken by the default
`logFormat` at src/index.js line 78). -/
def stringifyVal : JsVal → String
  | .vstr s => jsonQuote s
  | .vnum n => toString n
  | .vobj kvs => "\x7b" ++ stringifyFields kvs ++ "\x7d"

/-- `JSON.stringify` on the field list of a JS object, comma separated. -/
def stringifyFields : List (String × JsVal) → String
  | [] => ""
  | [(k, v)] => jsonQuote k ++ ":" ++ stringifyVal v
  | (k, v) :: rest => jsonQuote k ++ ":" ++ stringifyVal v ++ "," ++ stringifyFields rest

end

/-- The default `logFormat` (src/index.js lines 75-79):
`if (!meta) meta = {}; if (message) meta.log_msg = message; JSON.stringify(meta)`.
The `log_msg` assignment only has an effect when `meta` is an object, exactly
as JS property assignment on a primitive silently does nothing. -/
def defaultLogFormat (message meta : JsVal) : String :=
  let m := if jsTruthy meta then meta else JsVal.vobj []
  let m := if jsTruthy message then
      match m with
      | JsVal.vobj kvs => JsVal.vobj (objSet kvs "log_msg" message)
      | other => other
    else m
  stringifyVal m

/-- The `levelMap` object of src/index.js lines 262-271: level name to syslog
severity number. -/
def levelMap (level : String) : Option Nat :=
  if level = "emerg" then some 0
  else if level = "alert" then some 1
  else if level = "crit" then some 2
  else if level = "error" then some 3
  else if level = "warning" then some 4
  else if level = "notice" then some 5
  else if level = "info" then some 6
  else if level = "debug" then some 7
  else none

/-- `getPriority` (src/index.js lines 272-275): `return levelMap[level] || 6`.
`undefined` (level not in the map) is falsy, but so is the number `0`, so the
`||` also turns a looked-up `0` into `6`. -/
def getPriority (level : String) : Nat :=
  match levelMap level with
  | none => 6
  | some n => if n = 0 then 6 else n

/-- The structured-data header built in the constructor (src/index.js
lines 110-114): `'[' + token + '@41058'` then one ` tag="t"` per tag
(the JS `for..in` over the array visits its indices in order), then `']'`. -/
def mkStructuredData (token : String) (tags : List String) : String :=
  "[" ++ token ++ "@41058"
    ++ tags.foldl (fun acc t => acc ++ " tag=\"" ++ t ++ "\"") ""
    ++ "]"

/-- The reconnect actions a stream handler can request:
`reconnectNow` is a direct `connectStream()` call, `schedule d` is
`setTimeout(body, d)`. -/
inductive Act where
  | reconnectNow : Act
  | schedule : Nat → Act

/-- The transport's `self` object: configuration fields fixed at construction
plus the mutable connection-management state.  `streamWritable` abstracts
`this.stream && this.stream.writable`. -/
structure Self where
  name : String
  level : String
  host : String
  port : Nat
  token : String
  tags : List String
  hostname : String
  pid : Nat
  program : String
  logFormat : JsVal → JsVal → String
  attemptsBeforeDecay : Nat
  maximumAttempts : Nat
  connectionDelay : Nat
  handleExceptions : Bool
  maxDelayBetweenReconnection : Nat
  inlineMeta : Bool
  currentRetries : Nat
  totalRetries : Nat
  buffer : String
  loggingEnabled : Bool
  structuredData : String
  streamWritable : Bool

/-- The constructor's options object.  Each optional field is `none` when the
caller omitted it; `logFormat` is a caller-supplied function and (being a JS
function) can never be falsy when present. -/
structure Options where
  token : Option String := none
  level : Option String := none
  host : Option String := none
  port : Option Nat := none
  tags : Option (List String) := none
  hostname : Option String := none
  pid : Option Nat := none
  program : Option String := none
  logFormat : Option (JsVal → JsVal → String) := none
  attemptsBeforeDecay : Option Nat := none
  maximumAttempts : Option Nat := none
  connectionDelay : Option Nat := none
  handleExceptions : Option Bool := none
  maxDelayBetweenReconnection : Option Nat := none
  inlineMeta : Option Bool := none

/-- The `Loggly` constructor (src/index.js lines 46-122) up to the initial
`connectStream()` call.  `envHostname` stands for `os.hostname()` and `envPid`
for `process.pid`.  A falsy token (`undefined` or `""`) makes construction
throw `Missing required parameters: token`. -/
def mkLoggly (opts : Options) (envHostname : String) (envPid : Nat) : Except String Self :=
  let token := opts.token.getD ""
  if token = "" then
    Except.error "Missing required parameters: token"
  else
    Except.ok {
      name := "Loggly"
      level := jsOrStr opts.level "info"
      host := jsOrStr opts.host "logs-01.loggly.com"
      port := jsOrNat opts.port 6514
      token := token
      tags := opts.tags.getD []
      hostname := jsOrStr opts.hostname envHostname
      pid := jsOrNat opts.pid envPid
      program := jsOrStr opts.program "default"
      logFormat := opts.logFormat.getD defaultLogFormat
      attemptsBeforeDecay := jsOrNat opts.attemptsBeforeDecay 5
      maximumAttempts := jsOrNat opts.maximumAttempts 25
      connectionDelay := jsOrNat opts.connectionDelay 1000
      handleExceptions := jsOrBool opts.handleExceptions false
      maxDelayBetweenReconnection := jsOrNat opts.maxDelayBetweenReconnection 60000
      inlineMeta := jsOrBool opts.inlineMeta false
      currentRetries := 0
      totalRetries := 0
      buffer := ""
      loggingEnabled := true
      structuredData := mkStructuredData token (opts.tags.getD [])
      streamWritable := false
    }

/-- Whether construction succeeded (no throw). -/
def constructionOk (r : Except String Self) : Bool :=
  match r with
  | Except.ok _ => true
  | Except.error _ => false

/-- The wire record assembled inside `sendMessage` (src/index.js
lines 240-251): `<8+priority>1 TIMESTAMP hostname program pid "-" SD BODY\r\n`
with the BODY coming from the injected `logFormat`. -/
def record (s : Self) (level : String) (message meta : JsVal) (now : String) : String :=
  "<" ++ toString (8 + getPriority level) ++ ">1 "
    ++ now ++ " "
    ++ s.hostname ++ " "
    ++ s.program ++ " "
    ++ toString s.pid ++ " "
    ++ "\"-\" "
    ++ s.structuredData ++ " "
    ++ s.logFormat message meta
    ++ "\r\n"

/-- `Loggly.prototype.sendMessage` (src/index.js lines 236-258): write the
record when the stream is writable, otherwise append it to the buffer when
buffering is enabled, otherwise drop it.  The second component is the payload
passed to `stream.write`, when any. -/
def sendMessage (s : Self) (level : String) (message meta : JsVal) (now : String) :
    Self × Option String :=
  let msg := record s level message meta now
  if s.streamWritable then
    (s, some msg)
  else if s.loggingEnabled then
    ({ s with buffer := s.buffer ++ msg }, none)
  else
    (s, none)

/-- `Loggly.prototype.log` (src/index.js lines 202-225) with the callback
already normalized.  Returns the new state, the payload written to the stream
(if any), and the list of callback invocations `(err, ok)`.  The source
computes `output = util.inspect(msg)` for a non-string message but then passes
the original `msg` to `sendMessage` (line 222), so `output` is dead. -/
def logStep (s : Self) (level : String) (msg meta : JsVal)
    (inspect : JsVal → String) (now : String) :
    Self × Option String × List (Option String × Bool) :=
  if s.loggingEnabled = false then
    (s, none, [(none, true)])
  else
    let output := match msg with
      | JsVal.vstr _ => msg
      | v => JsVal.vstr (inspect v)
    let r := sendMessage s level msg meta now
    (r.1, r.2, [(none, true)])

/-- The `error` handler registered on the stream (src/index.js lines 128-153):
it emits the error and schedules the retry body after the current
`connectionDelay`.  The state is untouched at scheduling time. -/
def onStreamError (s : Self) : Self × Act :=
  (s, Act.schedule s.connectionDelay)

/-- The `end` handler registered on the stream (src/index.js lines 156-158):
`connectStream()` immediately, nothing else. -/
def onStreamEnd (s : Self) : Self × Act :=
  (s, Act.reconnectNow)

/-- The body of the `setTimeout` inside the error handler (src/index.js
lines 133-152): increment both retry counters, apply the decay rule, call
`connectStream()` (the returned `Act.reconnectNow`), then disable buffering
once `totalRetries` reaches `maximumAttempts`, emitting the error message.
The third component is the emitted error text, when one is emitted. -/
def retryTimerBody (s : Self) : Self × Act × Option String :=
  let s1 := { s with currentRetries := s.currentRetries + 1,
                     totalRetries := s.totalRetries + 1 }
  let s2 :=
    if s1.connectionDelay < s1.maxDelayBetweenReconnection ∧
        s1.attemptsBeforeDecay ≤ s1.currentRetries then
      { s1 with connectionDelay := s1.connectionDelay * 2, currentRetries := 0 }
    else s1
  if s2.loggingEnabled = true ∧ s2.maximumAttempts ≤ s2.totalRetries then
    ({ s2 with loggingEnabled := false }, Act.reconnectNow,
      some "Max entries eclipsed, disabling buffering")
  else
    (s2, Act.reconnectNow, none)

/-- `onConnected` (src/index.js lines 161-175): reset the retry state, emit
`connect`, then flush the buffer as a single `stream.write` and clear it.
The second component is the flushed payload, when the buffer was non-empty. -/
def onConnected (s : Self) : Self × Option String :=
  let s1 := { s with loggingEnabled := true, currentRetries := 0,
                     totalRetries := 0, connectionDelay := 1000 }
  if s1.buffer = "" then
    (s1, none)
  else
    ({ s1 with buffer := "" }, some s1.buffer)

/-- External events for a delivery trace: a `log` call, or a successful TLS
handshake (the socket becomes writable and node fires `onConnected`). -/
inductive Event where
  | elog : String → JsVal → JsVal → String → Event
  | econnect : Event

/-- One event of a delivery trace.  For `econnect` the environment (the TLS
socket) makes the stream writable before the `onConnected` handler runs.
Returns the new state and the payloads written to the wire, in order. -/
def step (inspect : JsVal → String) (s : Self) (e : Event) : Self × List String :=
  match e with
  | Event.elog level msg meta now =>
      let r := logStep s level msg meta inspect now
      (r.1, r.2.1.toList)
  | Event.econnect =>
      let s1 := { s with streamWritable := true }
      let r := onConnected s1
      (r.1, r.2.toList)

/-- Run a trace of events, concatenating the wire writes in order. -/
def run (inspect : JsVal → String) (s : Self) : List Event → Self × List String
  | [] => (s, [])
  | e :: es =>
      let r := step inspect s e
      let r2 := run inspect r.1 es
      (r2.1, r.2 ++ r2.2)

/-- A concrete transport used to evaluate the model on explicit inputs:
token `tok`, no tags, hostname `myhost`, pid 42, everything else at the
constructor defaults, not yet connected. -/
def sampleSelf : Self where
  name := "Loggly"
  level := "info"
  host := "logs-01.loggly.com"
  port := 6514
  token := "tok"
  tags := []
  hostname := "myhost"
  pid := 42
  program := "default"
  logFormat := defaultLogFormat
  attemptsBeforeDecay := 5
  maximumAttempts := 25
  connectionDelay := 1000
  handleExceptions := false
  maxDelayBetweenReconnection := 60000
  inlineMeta := false
  currentRetries := 0
  totalRetries := 0
  buffer := ""
  loggingEnabled := true
  structuredData := mkStructuredData "tok" []
  streamWritable := false

/-- Claim C1 evaluation at the failing input: `levelMap` maps `emerg` to 0,
but `getPriority` returns 6 for it (`levelMap[level] || 6` treats the mapped
0 as falsy), so the encoded record for `emerg` carries PRIORITY 14 = 8 + 6
instead of 8 + 0, identical to the record for `info`. -/
theorem c1_emerg_priority_is_info :
    levelMap "emerg" = some 0 ∧
    getPriority "emerg" = 6 ∧
    8 + getPriority "emerg" = 14 ∧
    record sampleSelf "emerg" (JsVal.vstr "m") (JsVal.vobj []) "T"
      = record sampleSelf "info" (JsVal.vstr "m") (JsVal.vobj []) "T" ∧
    getPriority "alert" = 1 ∧ getPriority "crit" = 2 ∧ getPriority "error" = 3 ∧
    getPriority "warning" = 4 ∧ getPriority "notice" = 5 ∧ getPriority "info" = 6 ∧
    getPriority "debug" = 7 ∧ getPriority "unknown" = 6 :=
  ⟨rfl, rfl, rfl, rfl, rfl, rfl, rfl, rfl, rfl, rfl, rfl, rfl⟩

/-- An options object whose configured reconnection delay differs from the
library default of 1000 ms. -/
def delayOpts : Options := { token := some "tok", connectionDelay := some 2000 }

/-- Claim C3 counterexample: with `connectionDelay: 2000` configured, the
constructed transport starts at 2000, but `onConnected` resets the delay to
the hard-coded 1000, not the configured base value. -/
theorem c3_counterexample_hardcoded_reset :
    (mkLoggly delayOpts "h" 1).map (fun s => s.connectionDelay) = Except.ok 2000 ∧
    (mkLoggly delayOpts "h" 1).map (fun s => (onConnected s).1.connectionDelay)
      = Except.ok 1000 ∧
    (1000 : Nat) ≠ 2000 :=
  ⟨rfl, rfl, by decide⟩

/-- Claim C3 (amended): on every successful connection `currentRetries` and
`totalRetries` reset to 0 and `connectionDelay` resets to the constant 1000
(the library default), regardless of the configured value; buffering is also
re-enabled. -/
theorem c3_reset_on_connect (s : Self) :
    (onConnected s).1.currentRetries = 0 ∧
    (onConnected s).1.totalRetries = 0 ∧
    (onConnected s).1.connectionDelay = 1000 ∧
    (onConnected s).1.loggingEnabled = true := by
  unfold onConnected
  dsimp only
  split <;> simp

/-- Claim C9: construction fails exactly on a missing or empty token; with a
non-empty token the token check passes and construction succeeds. -/
theorem c9_token_required (opts : Options) (envH : String) (envP : Nat) :
    ((opts.token = none ∨ opts.token = some "") →
      constructionOk (mkLoggly opts envH envP) = false) ∧
    (∀ t : String, opts.token = some t → t ≠ "" →
      constructionOk (mkLoggly opts envH envP) = true) := by
  constructor
  · rintro (h | h) <;> simp [mkLoggly, constructionOk, h]
  · intro t ht hne
    simp [mkLoggly, constructionOk, ht, hne]

/-- Claim C9 witness: a config with token `abc` constructs, the empty config
and an empty-token config do not. -/
theorem c9_witness :
    constructionOk (mkLoggly { token := some "abc" } "h" 1) = true ∧
    constructionOk (mkLoggly {} "h" 1) = false ∧
    constructionOk (mkLoggly { token := some "" } "h" 1) = false := by
  refine ⟨?_, ?_, ?_⟩
  · exact (c9_token_required { token := some "abc" } "h" 1).2 "abc" rfl (by decide)
  · exact (c9_token_required {} "h" 1).1 (Or.inl rfl)
  · exact (c9_token_required { token := some "" } "h" 1).1 (Or.inr rfl)

/-- Claim C10: each optional option falls back to its built-in default not
only when absent but for any falsy supplied value (`0` for numbers, `""` for
strings, `false` for booleans); arrays and functions are never falsy in JS,
so for `tags` and `logFormat` only absence selects the default. -/
theorem c10_falsy_options_default (opts : Options) (envH : String) (envP : Nat)
    (s : Self) (hok : mkLoggly opts envH envP = Except.ok s) :
    (opts.level = none ∨ opts.level = some "" → s.level = "info") ∧
    (opts.host = none ∨ opts.host = some "" → s.host = "logs-01.loggly.com") ∧
    (opts.port = none ∨ opts.port = some 0 → s.port = 6514) ∧
    (opts.tags = none → s.tags = []) ∧
    (opts.hostname = none ∨ opts.hostname = some "" → s.hostname = envH) ∧
    (opts.pid = none ∨ opts.pid = some 0 → s.pid = envP) ∧
    (opts.program = none ∨ opts.program = some "" → s.program = "default") ∧
    (opts.logFormat = none → s.logFormat = defaultLogFormat) ∧
    (opts.attemptsBeforeDecay = none ∨ opts.attemptsBeforeDecay = some 0 →
      s.attemptsBeforeDecay = 5) ∧
    (opts.maximumAttempts = none ∨ opts.maximumAttempts = some 0 →
      s.maximumAttempts = 25) ∧
    (opts.connectionDelay = none ∨ opts.connectionDelay = some 0 →
      s.connectionDelay = 1000) ∧
    (opts.handleExceptions = none ∨ opts.handleExceptions = some false →
      s.handleExceptions = false) ∧
    (opts.maxDelayBetweenReconnection = none ∨ opts.maxDelayBetweenReconnection = some 0 →
      s.maxDelayBetweenReconnection = 60000) ∧
    (opts.inlineMeta = none ∨ opts.inlineMeta = some false → s.inlineMeta = false) := by
  unfold mkLoggly at hok
  dsimp only at hok
  split at hok
  · exact absurd hok (by simp)
  · injection hok with hok
    subst hok
    refine ⟨?_, ?_, ?_, ?_, ?_, ?_, ?_, ?_, ?_, ?_, ?_, ?_, ?_, ?_⟩
    · rintro (h | h) <;> simp [jsOrStr, h]
    · rintro (h | h) <;> simp [jsOrStr, h]
    · rintro (h | h) <;> simp [jsOrNat, h]
    · intro h; simp [h]
    · rintro (h | h) <;> simp [jsOrStr, h]
    · rintro (h | h) <;> simp [jsOrNat, h]
    · rintro (h | h) <;> simp [jsOrStr, h]
    · intro h; simp [h]
    · rintro (h | h) <;> simp [jsOrNat, h]
    · rintro (h | h) <;> simp [jsOrNat, h]
    · rintro (h | h) <;> simp [jsOrNat, h]
    · rintro (h | h) <;> simp [jsOrBool, h]
    · rintro (h | h) <;> simp [jsOrNat, h]
    · rintro (h | h) <;> simp [jsOrBool, h]

/-- An options object supplying a falsy value for every option that can be
falsy in its type, and omitting the rest (token aside). -/
def falsyOpts : Options where
  token := some "t"
  level := some ""
  host := some ""
  port := some 0
  tags := none
  hostname := some ""
  pid := some 0
  program := some ""
  logFormat := none
  attemptsBeforeDecay := some 0
  maximumAttempts := some 0
  connectionDelay := some 0
  handleExceptions := some false
  maxDelayBetweenReconnection := some 0
  inlineMeta := some false

/-- The transport that `falsyOpts` constructs: every field at its default. -/
def falsySelf : Self where
  name := "Loggly"
  level := "info"
  host := "logs-01.loggly.com"
  port := 6514
  token := "t"
  tags := []
  hostname := "envh"
  pid := 9
  program := "default"
  logFormat := defaultLogFormat
  attemptsBeforeDecay := 5
  maximumAttempts := 25
  connectionDelay := 1000
  handleExceptions := false
  maxDelayBetweenReconnection := 60000
  inlineMeta := false
  currentRetries := 0
  totalRetries := 0
  buffer := ""
  loggingEnabled := true
  structuredData := mkStructuredData "t" []
  streamWritable := false

/-- Claim C10 witness: constructing with `falsyOpts` (port 0, empty program,
zero delays, ...) yields the defaults 6514, `default`, 1000, 25, and so on. -/
theorem c10_witness :
    mkLoggly falsyOpts "envh" 9 = Except.ok falsySelf ∧
    falsySelf.connectionDelay = 1000 ∧
    falsySelf.maximumAttempts = 25 ∧
    falsySelf.port = 6514 ∧
    falsySelf.program = "default" ∧
    falsySelf.level = "info" ∧
    falsySelf.attemptsBeforeDecay = 5 ∧
    falsySelf.maxDelayBetweenReconnection = 60000 := by
  have hok : mkLoggly falsyOpts "envh" 9 = Except.ok falsySelf := by rfl
  obtain ⟨h1, h2, h3, h4, h5, h6, h7, h8, h9, h10, h11, h12, h13, h14⟩ :=
    c10_falsy_options_default falsyOpts "envh" 9 falsySelf hok
  exact ⟨hok, h11 (Or.inr rfl), h10 (Or.inr rfl), h3 (Or.inr rfl),
    h7 (Or.inr rfl), h1 (Or.inr rfl), h9 (Or.inr rfl), h13 (Or.inr rfl)⟩

/-- Field-by-field description of the retry timer body: `totalRetries` always
increments, the delay and `currentRetries` follow the decay rule tested on the
incremented counter, and the buffer and the tuning fields are untouched. -/
theorem retryTimerBody_fields (s : Self) :
    (retryTimerBody s).1.totalRetries = s.totalRetries + 1 ∧
    (retryTimerBody s).1.connectionDelay =
      (if s.connectionDelay < s.maxDelayBetweenReconnection ∧
          s.attemptsBeforeDecay ≤ s.currentRetries + 1
       then s.connectionDelay * 2 else s.connectionDelay) ∧
    (retryTimerBody s).1.currentRetries =
      (if s.connectionDelay < s.maxDelayBetweenReconnection ∧
          s.attemptsBeforeDecay ≤ s.currentRetries + 1
       then 0 else s.currentRetries + 1) ∧
    (retryTimerBody s).1.buffer = s.buffer ∧
    (retryTimerBody s).1.maxDelayBetweenReconnection = s.maxDelayBetweenReconnection ∧
    (retryTimerBody s).2.1 = Act.reconnectNow := by
  unfold retryTimerBody
  dsimp only
  split_ifs <;> simp_all

/-- Claim C2: each pass through the stream-error retry body increments
`totalRetries` (and, absent a decay, `currentRetries`) by one; exactly when
the current delay is below `maxDelayBetweenReconnection` and the incremented
`currentRetries` has reached `attemptsBeforeDecay`, the delay doubles
(uncapped at that moment) and `currentRetries` resets to 0; once the delay is
at or above the maximum it never changes again. -/
theorem c2_backoff_decay (s : Self) :
    (retryTimerBody s).1.totalRetries = s.totalRetries + 1 ∧
    (s.connectionDelay < s.maxDelayBetweenReconnection ∧
        s.attemptsBeforeDecay ≤ s.currentRetries + 1 →
      (retryTimerBody s).1.connectionDelay = s.connectionDelay * 2 ∧
      (retryTimerBody s).1.currentRetries = 0) ∧
    (¬ (s.connectionDelay < s.maxDelayBetweenReconnection ∧
        s.attemptsBeforeDecay ≤ s.currentRetries + 1) →
      (retryTimerBody s).1.connectionDelay = s.connectionDelay ∧
      (retryTimerBody s).1.currentRetries = s.currentRetries + 1) ∧
    (s.maxDelayBetweenReconnection ≤ s.connectionDelay →
      (retryTimerBody s).1.connectionDelay = s.connectionDelay) := by
  obtain ⟨ht, hcd, hcr, -, -, -⟩ := retryTimerBody_fields s
  refine ⟨ht, ?_, ?_, ?_⟩
  · intro h
    rw [hcd, if_pos h, hcr, if_pos h]
    exact ⟨rfl, rfl⟩
  · intro h
    rw [hcd, if_neg h, hcr, if_neg h]
    exact ⟨rfl, rfl⟩
  · intro h
    have hneg : ¬ (s.connectionDelay < s.maxDelayBetweenReconnection ∧
        s.attemptsBeforeDecay ≤ s.currentRetries + 1) := by
      rintro ⟨h1, -⟩
      omega
    rw [hcd, if_neg hneg]

/-- Claim C2 witness, the spec's own backoff scenario: at delay 1000 with
`attemptsBeforeDecay = 5`, the fifth consecutive failure doubles the delay to
2000 and resets the counter; the first failure changes neither; at delay
60000 (the maximum) the delay stays put; and from delay 32000 a decay step
jumps to 64000, past the maximum, uncapped. -/
theorem c2_witness :
    (retryTimerBody { sampleSelf with currentRetries := 4 }).1.connectionDelay = 2000 ∧
    (retryTimerBody { sampleSelf with currentRetries := 4 }).1.currentRetries = 0 ∧
    (retryTimerBody sampleSelf).1.connectionDelay = 1000 ∧
    (retryTimerBody sampleSelf).1.currentRetries = 1 ∧
    (retryTimerBody { sampleSelf with connectionDelay := 60000 }).1.connectionDelay = 60000 ∧
    (retryTimerBody
        { sampleSelf with connectionDelay := 32000, currentRetries := 4 }
      ).1.connectionDelay = 64000 := by
  have h1 := (c2_backoff_decay { sampleSelf with currentRetries := 4 }).2.1
    (by constructor <;> decide)
  have h2 := (c2_backoff_decay sampleSelf).2.2.1 (by decide)
  have h3 := (c2_backoff_decay { sampleSelf with connectionDelay := 60000 }).2.2.2
    (by decide)
  have h4 := (c2_backoff_decay
    { sampleSelf with connectionDelay := 32000, currentRetries := 4 }).2.1
    (by constructor <;> decide)
  exact ⟨h1.1, h1.2, h2.1, h2.2, h3, h4.1⟩

/-- Claim C7: a stream `end` event calls `connectStream()` immediately,
touching no state and no counter; a stream `error` event leaves the state
untouched and only schedules the counted retry body after the current
`connectionDelay`; that body is the one that increments `totalRetries` and
then reconnects. -/
theorem c7_end_immediate_error_delayed (s : Self) :
    onStreamEnd s = (s, Act.reconnectNow) ∧
    onStreamError s = (s, Act.schedule s.connectionDelay) ∧
    (retryTimerBody s).2.1 = Act.reconnectNow ∧
    (retryTimerBody s).1.totalRetries = s.totalRetries + 1 := by
  obtain ⟨ht, -, -, -, -, ha⟩ := retryTimerBody_fields s
  exact ⟨rfl, rfl, ha, ht⟩

/-- Claim C4: once the incremented `totalRetries` reaches `maximumAttempts`
while buffering is enabled, buffering turns off and the error notification
`Max entries eclipsed, disabling buffering` is emitted; when buffering is
already off the retry body emits nothing and the buffer is kept unchanged in
both cases; and with buffering off, a further `log` call leaves the buffer
unchanged (the message is not queued). -/
theorem c4_disable_buffering_once (s : Self) (level : String) (msg meta : JsVal)
    (inspect : JsVal → String) (now : String) :
    (s.loggingEnabled = true → s.maximumAttempts ≤ s.totalRetries + 1 →
      (retryTimerBody s).1.loggingEnabled = false ∧
      (retryTimerBody s).2.2 = some "Max entries eclipsed, disabling buffering" ∧
      (retryTimerBody s).1.buffer = s.buffer) ∧
    (s.loggingEnabled = false →
      (retryTimerBody s).1.loggingEnabled = false ∧
      (retryTimerBody s).2.2 = none ∧
      (retryTimerBody s).1.buffer = s.buffer) ∧
    (s.loggingEnabled = false →
      (logStep s level msg meta inspect now).1.buffer = s.buffer) := by
  refine ⟨?_, ?_, ?_⟩
  · intro he hm
    unfold retryTimerBody
    dsimp only
    split_ifs <;> simp_all
  · intro he
    unfold retryTimerBody
    dsimp only
    split_ifs <;> simp_all
  · intro he
    unfold logStep
    simp [he]

/-- Claim C4 witness: with the default `maximumAttempts = 25` and 24 failures
so far, the 25th failure flips buffering off, emits the notification and keeps
the buffer `B`; rerunning the retry body on the disabled state emits nothing;
and a `log` call on the disabled state leaves the buffer at `B`. -/
theorem c4_witness :
    (retryTimerBody
        { sampleSelf with totalRetries := 24, buffer := "B" }
      ).1.loggingEnabled = false ∧
    (retryTimerBody { sampleSelf with totalRetries := 24, buffer := "B" }).2.2
      = some "Max entries eclipsed, disabling buffering" ∧
    (retryTimerBody { sampleSelf with totalRetries := 24, buffer := "B" }).1.buffer
      = "B" ∧
    (retryTimerBody { sampleSelf with loggingEnabled := false, buffer := "B" }).2.2
      = none ∧
    (logStep { sampleSelf with loggingEnabled := false, buffer := "B" } "info"
        (JsVal.vstr "x") (JsVal.vobj []) (fun _ => "") "T").1.buffer = "B" := by
  have h1 := (c4_disable_buffering_once
    { sampleSelf with totalRetries := 24, buffer := "B" }
    "info" (JsVal.vstr "x") (JsVal.vobj []) (fun _ => "") "T").1 rfl (by decide)
  have h2 := (c4_disable_buffering_once
    { sampleSelf with loggingEnabled := false, buffer := "B" }
    "info" (JsVal.vstr "x") (JsVal.vobj []) (fun _ => "") "T")
  exact ⟨h1.1, h1.2.1, h1.2.2, (h2.2.1 rfl).2.1, h2.2.2 rfl⟩

/-- Claim C6: every `log` call invokes the callback exactly once, with the
success result `(null, true)`, whatever happens to the message; and when
buffering is disabled and no connection exists the message is dropped — the
state is unchanged, nothing is written, and the callback still reports
success. -/
theorem c6_callback_always_success (s : Self) (level : String) (msg meta : JsVal)
    (inspect : JsVal → String) (now : String) :
    (logStep s level msg meta inspect now).2.2 = [((none : Option String), true)] ∧
    (s.loggingEnabled = false → s.streamWritable = false →
      logStep s level msg meta inspect now
        = (s, none, [((none : Option String), true)])) := by
  constructor
  · unfold logStep
    split <;> rfl
  · intro he hw
    unfold logStep
    simp [he]

/-- Claim C6 witness: on a disabled, disconnected transport, `log` drops the
message, writes nothing, and still answers the callback with success. -/
theorem c6_witness :
    logStep { sampleSelf with loggingEnabled := false } "info" (JsVal.vstr "x")
        (JsVal.vobj []) (fun _ => "") "T"
      = ({ sampleSelf with loggingEnabled := false }, none,
         [((none : Option String), true)]) :=
  (c6_callback_always_success { sampleSelf with loggingEnabled := false } "info"
    (JsVal.vstr "x") (JsVal.vobj []) (fun _ => "") "T").2 rfl rfl

/-- Prepending the empty string is the identity. -/
theorem str_empty_append (a : String) : "" ++ a = a := by
  cases a
  rfl

/-- A string starting with a non-empty prefix is non-empty. -/
theorem str_append_ne_empty (a b : String) (h : a ≠ "") : a ++ b ≠ "" := by
  intro hc
  apply h
  have hd := congrArg String.data hc
  rw [String.data_append] at hd
  have ha : a.data = [] := (List.append_eq_nil.mp hd).1
  cases a
  simp_all

/-- A wire record is never the empty string (it starts with `<`). -/
theorem record_ne_empty (s : Self) (level : String) (msg meta : JsVal)
    (now : String) : record s level msg meta now ≠ "" := by
  unfold record
  intro hc
  have hd := congrArg String.data hc
  simp [String.data_append] at hd

/-- A `log` call while disconnected with buffering enabled appends the encoded
record to the buffer, writes nothing, and acknowledges success. -/
theorem logStep_buffering (s : Self) (h1 : s.loggingEnabled = true)
    (h2 : s.streamWritable = false) (level : String) (msg meta : JsVal)
    (inspect : JsVal → String) (now : String) :
    logStep s level msg meta inspect now
      = ({ s with buffer := s.buffer ++ record s level msg meta now }, none,
         [((none : Option String), true)]) := by
  unfold logStep sendMessage
  simp [h1, h2]

/-- A `log` call on a writable stream writes the encoded record directly,
leaves the state unchanged, and acknowledges success. -/
theorem logStep_writes (s : Self) (h1 : s.loggingEnabled = true)
    (h2 : s.streamWritable = true) (level : String) (msg meta : JsVal)
    (inspect : JsVal → String) (now : String) :
    logStep s level msg meta inspect now
      = (s, some (record s level msg meta now),
         [((none : Option String), true)]) := by
  unfold logStep sendMessage
  simp [h1, h2]

/-- Claim C5: messages A and B logged while disconnected (buffering enabled,
buffer empty) are appended to the buffer in order; on the next successful
connection they are flushed to the wire as one batch `A ++ B`, the buffer is
cleared, and a later message C is written directly — so the wire receives
A, B, C in order with no interleaving. -/
theorem c5_ordering (s : Self) (inspect : JsVal → String)
    (hw : s.streamWritable = false) (he : s.loggingEnabled = true)
    (hb : s.buffer = "")
    (lA lB lC : String) (mA mB mC tA tB tC : JsVal) (nA nB nC : String) :
    (run inspect s
        [Event.elog lA mA tA nA, Event.elog lB mB tB nB, Event.econnect,
         Event.elog lC mC tC nC]).2
      = [record s lA mA tA nA ++ record s lB mB tB nB,
         record s lC mC tC nC] ∧
    (run inspect s
        [Event.elog lA mA tA nA, Event.elog lB mB tB nB, Event.econnect,
         Event.elog lC mC tC nC]).1.buffer = "" := by
  have h1 : step inspect s (Event.elog lA mA tA nA)
      = ({ s with buffer := record s lA mA tA nA }, []) := by
    simp only [step]
    rw [logStep_buffering s he hw lA mA tA inspect nA, hb, str_empty_append]
    rfl
  have h2 : step inspect { s with buffer := record s lA mA tA nA }
        (Event.elog lB mB tB nB)
      = ({ s with buffer := record s lA mA tA nA ++ record s lB mB tB nB },
         []) := by
    simp only [step]
    rw [logStep_buffering { s with buffer := record s lA mA tA nA } he hw
      lB mB tB inspect nB]
    rfl
  have hne : record s lA mA tA nA ++ record s lB mB tB nB ≠ "" :=
    str_append_ne_empty _ _ (record_ne_empty s lA mA tA nA)
  have h3 : step inspect
        { s with buffer := record s lA mA tA nA ++ record s lB mB tB nB }
        Event.econnect
      = ({ s with buffer := "", loggingEnabled := true, currentRetries := 0, totalRetries := 0, connectionDelay := 1000, streamWritable := true },
         [record s lA mA tA nA ++ record s lB mB tB nB]) := by
    simp only [step, onConnected]
    rw [if_neg hne]
    rfl
  have h4 : step inspect
        { s with buffer := "", loggingEnabled := true, currentRetries := 0, totalRetries := 0, connectionDelay := 1000, streamWritable := true }
        (Event.elog lC mC tC nC)
      = ({ s with buffer := "", loggingEnabled := true, currentRetries := 0, totalRetries := 0, connectionDelay := 1000, streamWritable := true },
         [record s lC mC tC nC]) := by
    simp only [step]
    rw [logStep_writes
      { s with buffer := "", loggingEnabled := true, currentRetries := 0, totalRetries := 0, connectionDelay := 1000, streamWritable := true }
      rfl rfl lC mC tC inspect nC]
    rfl
  have hrun : run inspect s
        [Event.elog lA mA tA nA, Event.elog lB mB tB nB, Event.econnect,
         Event.elog lC mC tC nC]
      = ({ s with buffer := "", loggingEnabled := true, currentRetries := 0, totalRetries := 0, connectionDelay := 1000, streamWritable := true },
         [record s lA mA tA nA ++ record s lB mB tB nB,
          record s lC mC tC nC]) := by
    simp only [run]
    rw [h1]
    dsimp only
    rw [h2]
    dsimp only
    rw [h3]
    dsimp only
    rw [h4]
    rfl
  rw [hrun]
  exact ⟨rfl, rfl⟩

/-- Claim C5 witness: on the sample transport, logging A and B while
disconnected and C after the connect puts exactly the batch `A ++ B` followed
by `C` on the wire. -/
theorem c5_witness :
    (run (fun _ => "") sampleSelf
        [Event.elog "info" (JsVal.vstr "A") (JsVal.vobj []) "T1",
         Event.elog "info" (JsVal.vstr "B") (JsVal.vobj []) "T2",
         Event.econnect,
         Event.elog "info" (JsVal.vstr "C") (JsVal.vobj []) "T3"]).2
      = [record sampleSelf "info" (JsVal.vstr "A") (JsVal.vobj []) "T1"
          ++ record sampleSelf "info" (JsVal.vstr "B") (JsVal.vobj []) "T2",
         record sampleSelf "info" (JsVal.vstr "C") (JsVal.vobj []) "T3"] :=
  (c5_ordering sampleSelf (fun _ => "") rfl rfl rfl "info" "info" "info"
    (JsVal.vstr "A") (JsVal.vstr "B") (JsVal.vstr "C")
    (JsVal.vobj []) (JsVal.vobj []) (JsVal.vobj []) "T1" "T2" "T3").1

/-- A model of what `util.inspect` produces on the object `\x7ba: 1\x7d`:
the human-readable text `\x7b a: 1 \x7d`. -/
def inspectSample : JsVal → String :=
  fun _ => "\x7b a: 1 \x7d"

/-- Claim C8 evaluation at the failing input: `log` computes
`output = util.inspect(msg)` for a non-string message but passes the raw
`msg` to `sendMessage` (src/index.js line 222), so for every inspect function
the wire record is the same and its BODY serializes the raw object — it is
not produced from the textual representation, whose use would give a
different BODY. -/
theorem c8_inspect_result_unused :
    (∀ inspect : JsVal → String,
      logStep { sampleSelf with streamWritable := true } "info"
          (JsVal.vobj [("a", JsVal.vnum 1)]) (JsVal.vobj []) inspect "T"
        = ({ sampleSelf with streamWritable := true },
           some "<14>1 T myhost default 42 \"-\" [tok@41058] \x7b\"log_msg\":\x7b\"a\":1\x7d\x7d\r\n",
           [((none : Option String), true)])) ∧
    defaultLogFormat (JsVal.vstr (inspectSample (JsVal.vobj [("a", JsVal.vnum 1)])))
        (JsVal.vobj [])
      ≠ defaultLogFormat (JsVal.vobj [("a", JsVal.vnum 1)]) (JsVal.vobj []) := by
  constructor
  · intro inspect
    rfl
  · decide
